import Mathlib

/-!
# Vault examples: HTTP Basic-Auth credentials and mTLS certificates

A shallow embedding of the two example clients
(`examples/http-basic-auth-gen/main.go`, `examples/mtls-certificates/main.go`).

* Go `error` values are the inductive `Err`; `oops.Wrapf` and `fmt.Errorf("...%w")`
  are its two wrapping constructors.
* A Go `(value, error)` result of an external call is an `Except Err value`;
  a pointer that may be nil is an `Option`.
* `interface{}` values are the inductive `Value`; `map[string]interface{}` is an
  association list (`Data`), a nil map being the empty list.
* The external world (the Vault client library, the file system) is a `Backend`
  record of handlers over an abstract state; every backend call made by an
  operation is appended to the `trace` of the `World`.
* A Go run-time panic (nil dereference, failed type assertion) is `Outcome.panic`.
* `slog` logging has no effect on results or backend calls and is left out.
-/

namespace VaultExamples

/-! ## Errors -/

/-- Go error values: a root error, `oops.Wrapf(cause, msg)`, or
`fmt.Errorf(msg ++ "%w", cause)`. -/
inductive Err where
  | base (msg : String)
  | wrapf (cause : Err) (msg : String)
  | errorf (msg : String) (cause : Err)
deriving DecidableEq

/-- The unwrap chain of an error, the error itself first. -/
def Err.chain : Err → List Err
  | .base m => [.base m]
  | .wrapf c m => .wrapf c m :: c.chain
  | .errorf m c => .errorf m c :: c.chain

/-- The error `outer` wraps `e` with added context: it is not `e` itself and
`e` is on its unwrap chain. -/
def Err.wraps (outer e : Err) : Bool :=
  decide (outer ≠ e) && decide (e ∈ outer.chain)

/-! ## Values and records -/

/-- Go `interface{}` values as they occur in response data. -/
inductive Value where
  | null
  | str (s : String)
  | num (n : Int)
  | bool (b : Bool)
  | list (xs : List Value)
  | time (t : Int)

/-- A Go `map[string]interface{}`. -/
abbrev Data := List (String × Value)

/-- The comparison `v == s` of an interface value with a string: true exactly
when the dynamic type is string and the strings are equal. -/
def Value.eqString : Value → String → Bool
  | .str s, p => decide (s = p)
  | _, _ => false

/-- The part of `vault.Secret` the clients read. -/
structure Secret where
  data : Data

/-- The part of `vault.KVSecret` the clients read. -/
structure KVSecret where
  data : Data

/-- The part of `vault.KVVersionMetadata` the clients read. -/
structure KVVersionMetadata where
  version : Int
  destroyed : Bool

/-- The fields of `vault.Config` set by `NewClient`. -/
structure VaultConfig where
  address : String
  maxRetries : Nat
  maxRetryWait : Nat

/-- The mTLS example's `Certificate` record; `caChain` nil is `[]`, `expiry` nil is `none`. -/
structure Certificate where
  certificate : String
  issuingCA : String
  caChain : List String
  privateKey : String
  privateKeyType : String
  serialNumber : String
  expiry : Option Int

/-- The zero value of `Certificate` (`var cert Certificate`). -/
def Certificate.zero : Certificate :=
  ⟨"", "", [], "", "", "", none⟩

/-! ## The external world -/

/-- A backend call made through the Vault client library. -/
inductive Call where
  | logicalRead (path : String)
  | logicalWrite (path : String) (data : Data)
  | kvPut (mount key : String) (data : Data)
  | kvGet (mount key : String)
  | kvGetVersionsAsList (mount key : String)
  | kvDestroy (mount key : String) (versions : List Int)

/-- The behaviour of everything external, over an abstract state `σ`:
`vault.NewClient`, `os.ReadFile`, `Logical().Read`, `Logical().Write`
(and `WriteWithContext`), and the KV v2 `Put`, `Get`, `GetVersionsAsList`,
`Destroy`. -/
structure Backend (σ : Type) where
  vaultNewClient : σ → VaultConfig → Option Err × σ
  readFile : σ → String → Except Err String × σ
  logicalRead : σ → String → Except Err (Option Secret) × σ
  logicalWrite : σ → String → Data → Except Err (Option Secret) × σ
  kvPut : σ → String → String → Data → Except Err (Option KVSecret) × σ
  kvGet : σ → String → String → Except Err (Option KVSecret) × σ
  kvGetVersionsAsList : σ → String → String → Except Err (List KVVersionMetadata) × σ
  kvDestroy : σ → String → String → List Int → Option Err × σ

/-- The state of the external world together with the backend calls made so far. -/
structure World (σ : Type) where
  st : σ
  trace : List Call

/-- The result of running Go code: a normal return or a run-time panic. -/
inductive Outcome (α : Type) where
  | ret (a : α)
  | panic (msg : String)

variable {σ : Type}

/-- The call `vault.NewClient(cfg)`: local construction, no backend call. -/
def callVaultNewClient (B : Backend σ) (w : World σ) (cfg : VaultConfig) :
    Option Err × World σ :=
  ((B.vaultNewClient w.st cfg).1, ⟨(B.vaultNewClient w.st cfg).2, w.trace⟩)

/-- The call `os.ReadFile(path)`: a file read, no backend call. -/
def callReadFile (B : Backend σ) (w : World σ) (path : String) :
    Except Err String × World σ :=
  ((B.readFile w.st path).1, ⟨(B.readFile w.st path).2, w.trace⟩)

/-- The call `vc.vault.Logical().Read(path)`. -/
def callLogicalRead (B : Backend σ) (w : World σ) (path : String) :
    Except Err (Option Secret) × World σ :=
  ((B.logicalRead w.st path).1,
    ⟨(B.logicalRead w.st path).2, w.trace ++ [Call.logicalRead path]⟩)

/-- The call `vc.vault.Logical().Write(path, data)` (or `WriteWithContext`). -/
def callLogicalWrite (B : Backend σ) (w : World σ) (path : String) (data : Data) :
    Except Err (Option Secret) × World σ :=
  ((B.logicalWrite w.st path data).1,
    ⟨(B.logicalWrite w.st path data).2, w.trace ++ [Call.logicalWrite path data]⟩)

/-- The call `vc.vault.KVv2(mount).Put(ctx, key, data)`. -/
def callKvPut (B : Backend σ) (w : World σ) (mount key : String) (data : Data) :
    Except Err (Option KVSecret) × World σ :=
  ((B.kvPut w.st mount key data).1,
    ⟨(B.kvPut w.st mount key data).2, w.trace ++ [Call.kvPut mount key data]⟩)

/-- The call `vc.vault.KVv2(mount).Get(ctx, key)`. -/
def callKvGet (B : Backend σ) (w : World σ) (mount key : String) :
    Except Err (Option KVSecret) × World σ :=
  ((B.kvGet w.st mount key).1,
    ⟨(B.kvGet w.st mount key).2, w.trace ++ [Call.kvGet mount key]⟩)

/-- The call `vc.vault.KVv2(mount).GetVersionsAsList(ctx, key)`. -/
def callKvGetVersionsAsList (B : Backend σ) (w : World σ) (mount key : String) :
    Except Err (List KVVersionMetadata) × World σ :=
  ((B.kvGetVersionsAsList w.st mount key).1,
    ⟨(B.kvGetVersionsAsList w.st mount key).2, w.trace ++ [Call.kvGetVersionsAsList mount key]⟩)

/-- The call `vc.vault.KVv2(mount).Destroy(ctx, key, versions)`. -/
def callKvDestroy (B : Backend σ) (w : World σ) (mount key : String) (versions : List Int) :
    Option Err × World σ :=
  ((B.kvDestroy w.st mount key versions).1,
    ⟨(B.kvDestroy w.st mount key versions).2, w.trace ++ [Call.kvDestroy mount key versions]⟩)

/-! ## The Basic-Auth client (`examples/http-basic-auth-gen/main.go`) -/

namespace BasicAuth

/-- The `Configuration` record of the Basic-Auth example. -/
structure Configuration where
  address : String
  token : String
  passwordPolicyGenerationFilePath : String

/-- The `Client` record: the Vault API client it holds, by its configuration and token. -/
structure Client where
  cfg : VaultConfig
  token : String

/-- The constant `policyName`. -/
def policyName : String := "basicAuth"

/-- The constant `authMountPath`. -/
def authMountPath : String := "http/auth"

/-- The method `getPolicyFromFile`: the file content, or the read error as it is. -/
def getPolicyFromFile (B : Backend σ) (w : World σ) (policyPath : String) :
    (String × Option Err) × World σ :=
  match callReadFile B w policyPath with
  | (.error err, w1) => (("", some err), w1)
  | (.ok file, w1) => ((file, none), w1)

/-- The method `createOrUpdatePasswordPolicy`: one logical write of `{"policy": policy}`. -/
def createOrUpdatePasswordPolicy (B : Backend σ) (w : World σ) (name policy : String) :
    Option Err × World σ :=
  let data : Data := [("policy", .str policy)]
  match callLogicalWrite B w ("/sys/policies/password/" ++ name) data with
  | (.error err, w1) => (some (.errorf "failed to create new policy: " err), w1)
  | (.ok _, w1) => (none, w1)

/-- The function `NewClient` of the Basic-Auth example. -/
def NewClient (B : Backend σ) (w : World σ) (config : Configuration) :
    (Option Client × Option Err) × World σ :=
  let cfg : VaultConfig := ⟨config.address, 3, 30 * 1000000000⟩
  match callVaultNewClient B w cfg with
  | (some err, w1) => ((none, some (.wrapf err "failed to create vault client")), w1)
  | (none, w1) =>
    let client : Client := ⟨cfg, config.token⟩
    match getPolicyFromFile B w1 config.passwordPolicyGenerationFilePath with
    | ((_, some err), w2) => ((none, some err), w2)
    | ((policy, none), w2) =>
      match createOrUpdatePasswordPolicy B w2 policyName policy with
      | (some err, w3) => ((none, some err), w3)
      | (none, w3) => ((some client, none), w3)

/-- The method `generatePasswordFromPolicy`: `resp.Data["password"].(string)` panics
on a nil response and on a missing or non-string value. -/
def generatePasswordFromPolicy (B : Backend σ) (w : World σ) (policy : String) :
    Outcome (String × Option Err) × World σ :=
  match callLogicalRead B w ("/sys/policies/password/" ++ policy ++ "/generate") with
  | (.error err, w1) => (.ret ("", some (.errorf "failed to generate new password: " err)), w1)
  | (.ok none, w1) => (.panic "invalid memory address or nil pointer dereference", w1)
  | (.ok (some resp), w1) =>
    match resp.data.lookup "password" with
    | some (.str s) => (.ret (s, none), w1)
    | _ => (.panic "interface conversion: interface is not string", w1)

/-- The method `GenerateBasicAuthCredentials`. -/
def GenerateBasicAuthCredentials (B : Backend σ) (w : World σ) (username : String) :
    Outcome (String × Option Err) × World σ :=
  match generatePasswordFromPolicy B w policyName with
  | (.panic msg, w1) => (.panic msg, w1)
  | (.ret (_, some err), w1) => (.ret ("", some (.wrapf err "unable to generate password")), w1)
  | (.ret (password, none), w1) =>
    let req : Data := [("password", .str password)]
    match callKvPut B w1 authMountPath username req with
    | (.error err, w2) =>
      (.ret ("", some (.wrapf err "failed to write basic auth credentials")), w2)
    | (.ok _, w2) => (.ret (password, none), w2)

/-- The method `RemoveBasicAuthCredentials`. -/
def RemoveBasicAuthCredentials (B : Backend σ) (w : World σ) (username : String) :
    Option Err × World σ :=
  match callKvGetVersionsAsList B w authMountPath username with
  | (.error err, w1) => (some (.wrapf err ("failed to list versions for " ++ username)), w1)
  | (.ok versionList, w1) =>
    let versions : List Int :=
      versionList.foldl (fun versions metadata => versions ++ [metadata.version]) []
    callKvDestroy B w1 authMountPath username versions

/-- The method `Authenticate`. -/
def Authenticate (B : Backend σ) (w : World σ) (username password : String) :
    (Bool × Option Err) × World σ :=
  match callKvGet B w authMountPath username with
  | (.error err, w1) => ((false, some err), w1)
  | (.ok none, w1) => ((false, none), w1)
  | (.ok (some response), w1) =>
    (((match response.data.lookup "password" with
        | some v => v.eqString password
        | none => false), none), w1)

end BasicAuth

/-! ## The mTLS client (`examples/mtls-certificates/main.go`) -/

namespace MTLS

/-- The `Configuration` record of the mTLS example. -/
structure Configuration where
  address : String
  token : String

/-- The `Client` record: the Vault API client it holds, by its configuration and token. -/
structure Client where
  cfg : VaultConfig
  token : String

/-- Modelled from the spec: `mapstructure.Decode` belongs to an external library that is
not among the sources. A string field tagged `key` takes the string stored under `key`;
it keeps its current value when the key is absent or holds nil; any other value is a
decoding error. -/
def decodeString (d : Data) (key : String) (cur : String) : Except Err String :=
  match d.lookup key with
  | none => .ok cur
  | some .null => .ok cur
  | some (.str s) => .ok s
  | some _ => .error (.base ("expected type string: " ++ key))

/-- Modelled from the spec: the elements of a decoded `[]string`, each a string
(a nil element is the empty string); any other element is a decoding error. -/
def decodeElems : List Value → Option (List String)
  | [] => some []
  | .str s :: rest => (decodeElems rest).map (fun ss => s :: ss)
  | .null :: rest => (decodeElems rest).map (fun ss => "" :: ss)
  | _ :: _ => none

/-- Modelled from the spec: `mapstructure.Decode` on a `[]string` field tagged `key`. -/
def decodeStringList (d : Data) (key : String) (cur : List String) :
    Except Err (List String) :=
  match d.lookup key with
  | none => .ok cur
  | some .null => .ok cur
  | some (.list xs) =>
    match decodeElems xs with
    | some ss => .ok ss
    | none => .error (.base ("expected type string: " ++ key))
  | some _ => .error (.base ("source data must be an array or slice: " ++ key))

/-- Modelled from the spec: `mapstructure.Decode` on a `*time.Time` field tagged `key`. -/
def decodeTime (d : Data) (key : String) (cur : Option Int) : Except Err (Option Int) :=
  match d.lookup key with
  | none => .ok cur
  | some .null => .ok none
  | some (.time t) => .ok (some t)
  | some _ => .error (.base ("expected a map: " ++ key))

/-- Modelled from the spec: `mapstructure.Decode(data, &cert)` for the `Certificate`
record, whose struct tags name the keys `certificate`, `issuing_ca`, `ca_chain`,
`private_key`, `private_key_type`, `serial_number` and `expiry`. -/
def mapstructureDecode (d : Data) (cert : Certificate) : Except Err Certificate :=
  match decodeString d "certificate" cert.certificate,
        decodeString d "issuing_ca" cert.issuingCA,
        decodeStringList d "ca_chain" cert.caChain,
        decodeString d "private_key" cert.privateKey,
        decodeString d "private_key_type" cert.privateKeyType,
        decodeString d "serial_number" cert.serialNumber,
        decodeTime d "expiry" cert.expiry with
  | .ok c, .ok i, .ok ch, .ok k, .ok kt, .ok sn, .ok ex => .ok ⟨c, i, ch, k, kt, sn, ex⟩
  | .error e, _, _, _, _, _, _ => .error e
  | _, .error e, _, _, _, _, _ => .error e
  | _, _, .error e, _, _, _, _ => .error e
  | _, _, _, .error e, _, _, _ => .error e
  | _, _, _, _, .error e, _, _ => .error e
  | _, _, _, _, _, .error e, _ => .error e
  | _, _, _, _, _, _, .error e => .error e

/-- The function `NewClient` of the mTLS example. -/
def NewClient (B : Backend σ) (w : World σ) (config : Configuration) :
    (Option Client × Option Err) × World σ :=
  let cfg : VaultConfig := ⟨config.address, 3, 30 * 1000000000⟩
  match callVaultNewClient B w cfg with
  | (some err, w1) => ((none, some (.wrapf err "failed to create vault client")), w1)
  | (none, w1) => ((some ⟨cfg, config.token⟩, none), w1)

/-- The method `IssueCertificate`: `secret.Data` panics on a nil response. -/
def IssueCertificate (B : Backend σ) (w : World σ) (userId : String) :
    Outcome (Option Certificate × Option Err) × World σ :=
  let req : Data :=
    [("private_key_format", .str "pem"), ("common_name", .str userId), ("user_ids", .str userId)]
  match callLogicalWrite B w "/pki/issue/mtls" req with
  | (.error err, w1) => (.ret (none, some (.wrapf err "failed to create a certificate")), w1)
  | (.ok none, w1) => (.panic "invalid memory address or nil pointer dereference", w1)
  | (.ok (some secret), w1) =>
    match mapstructureDecode secret.data Certificate.zero with
    | .error err => (.ret (none, some (.wrapf err "failed to decode the certificate")), w1)
    | .ok cert => (.ret (some cert, none), w1)

/-- The method `RevokeCertificate`. -/
def RevokeCertificate (B : Backend σ) (w : World σ) (serialNumber : String) :
    Option Err × World σ :=
  let req : Data := [("serial_number", .str serialNumber)]
  match callLogicalWrite B w "/pki/revoke" req with
  | (.error err, w1) => (some (.wrapf err "failed to revoke certificate"), w1)
  | (.ok _, w1) => (none, w1)

end MTLS

/-! ## A model of the versioned key-value store -/

/-- One version of a secret in the modelled store; `data = none` once destroyed. -/
structure KVVersion where
  version : Int
  data : Option Data

/-- The state of the modelled store: for a mount and a key, the versions, oldest first. -/
abbrev KVStore := String → String → List KVVersion

/-- The behaviour the model leaves open: client construction, the file system, the
logical endpoints, and whether a Put, a listing or a Destroy fails. -/
structure StoreFaults where
  newClientErr : VaultConfig → Option Err
  file : String → Except Err String
  read : KVStore → String → Except Err (Option Secret)
  write : KVStore → String → Data → Except Err (Option Secret)
  putErr : KVStore → String → String → Data → Option Err
  listErr : KVStore → String → String → Option Err
  destroyErr : KVStore → String → String → List Int → Option Err

/-- Modelled from the spec: a successful Put adds a version holding the data. -/
def KVStore.put (s : KVStore) (mount key : String) (d : Data) : KVStore :=
  fun m k =>
    if m = mount ∧ k = key then s m k ++ [⟨((s m k).length : Int) + 1, some d⟩] else s m k

/-- Modelled from the spec: Destroy erases the data of the listed versions. -/
def KVStore.destroy (s : KVStore) (mount key : String) (versions : List Int) : KVStore :=
  fun m k =>
    if m = mount ∧ k = key then
      (s m k).map (fun v => if v.version ∈ versions then ⟨v.version, none⟩ else v)
    else s m k

/-- Modelled from the spec: the versioned store behind the KV v2 calls. Put adds a
version, the listing returns every version of a key, Destroy erases the data of the
listed versions, Get returns the data of the latest version (nil data once erased,
an error when the key has no version). A failed call leaves the store unchanged. -/
def modelStore (F : StoreFaults) : Backend KVStore where
  vaultNewClient s cfg := (F.newClientErr cfg, s)
  readFile s path := (F.file path, s)
  logicalRead s path := (F.read s path, s)
  logicalWrite s path d := (F.write s path d, s)
  kvPut s mount key d :=
    match F.putErr s mount key d with
    | some e => (.error e, s)
    | none => (.ok (some ⟨[]⟩), s.put mount key d)
  kvGet s mount key :=
    match (s mount key).getLast? with
    | none => (.error (.base "secret not found"), s)
    | some v => (.ok (some ⟨v.data.getD []⟩), s)
  kvGetVersionsAsList s mount key :=
    match F.listErr s mount key with
    | some e => (.error e, s)
    | none => (.ok ((s mount key).map (fun v => ⟨v.version, v.data.isNone⟩)), s)
  kvDestroy s mount key versions :=
    match F.destroyErr s mount key versions with
    | some e => (some e, s)
    | none => (none, s.destroy mount key versions)

/-! ## Concrete backends used at the worked examples -/

/-- A store in which nothing fails and password generation yields `pw`. -/
def okFaults (pw : String) : StoreFaults where
  newClientErr _ := none
  file _ := .ok "length = 20"
  read _ _ := .ok (some ⟨[("password", .str pw)]⟩)
  write _ _ _ := .ok none
  putErr _ _ _ _ := none
  listErr _ _ _ := none
  destroyErr _ _ _ _ := none

/-- The store with no secret. -/
def emptyStore : KVStore := fun _ _ => []

/-- A stateless backend in which every external call fails with `e`. -/
def failing (e : Err) : Backend Unit where
  vaultNewClient _ _ := (some e, ())
  readFile _ _ := (.error e, ())
  logicalRead _ _ := (.error e, ())
  logicalWrite _ _ _ := (.error e, ())
  kvPut _ _ _ _ := (.error e, ())
  kvGet _ _ _ := (.error e, ())
  kvGetVersionsAsList _ _ _ := (.error e, ())
  kvDestroy _ _ _ _ := (some e, ())

/-- A stateless backend answering every call from fixed responses. -/
def fixed (file : Except Err String) (rd wr : Except Err (Option Secret))
    (get : Except Err (Option KVSecret)) (versions : Except Err (List KVVersionMetadata))
    (put : Except Err (Option KVSecret)) (destroy : Option Err) : Backend Unit where
  vaultNewClient _ _ := (none, ())
  readFile _ _ := (file, ())
  logicalRead _ _ := (rd, ())
  logicalWrite _ _ _ := (wr, ())
  kvPut _ _ _ _ := (put, ())
  kvGet _ _ _ := (get, ())
  kvGetVersionsAsList _ _ _ := (versions, ())
  kvDestroy _ _ _ _ := (destroy, ())

/-! ## Helper lemmas -/

open BasicAuth MTLS

/-- The loop of `RemoveBasicAuthCredentials` collects the version numbers in order. -/
theorem foldl_versions (L : List KVVersionMetadata) (acc : List Int) :
    L.foldl (fun versions metadata => versions ++ [metadata.version]) acc
      = acc ++ L.map (fun m => m.version) := by
  induction L generalizing acc with
  | nil => simp
  | cons m rest ih => simp [List.foldl, ih]

/-! ## Authenticate -/

/-- C1: if the backend Get for `u` fails with `e`, `Authenticate` returns `(false, e)`;
if Get succeeds with a nil response it returns `(false, nil)`; otherwise it returns
`(b, nil)` where `b` is true exactly when the response data holds the string `p` under
the key "password". A missing key or a non-string value gives false for every `p`. -/
theorem authenticate_contract (B : Backend σ) (w : World σ) (u p : String) :
    (∀ e, (B.kvGet w.st authMountPath u).1 = .error e →
      (Authenticate B w u p).1 = (false, some e)) ∧
    ((B.kvGet w.st authMountPath u).1 = .ok none →
      (Authenticate B w u p).1 = (false, none)) ∧
    (∀ r, (B.kvGet w.st authMountPath u).1 = .ok (some r) →
      ∃ b, (Authenticate B w u p).1 = (b, none) ∧
        (b = true ↔ r.data.lookup "password" = some (.str p)) ∧
        (r.data.lookup "password" = none → b = false) ∧
        (∀ v, r.data.lookup "password" = some v → (∀ s, v ≠ .str s) → b = false)) := by
  refine ⟨fun e h => ?_, fun h => ?_, fun r h => ?_⟩
  · simp [Authenticate, callKvGet, h]
  · simp [Authenticate, callKvGet, h]
  · refine ⟨_, by simp [Authenticate, callKvGet, h]; rfl, ?_, ?_, ?_⟩
    · cases hl : r.data.lookup "password" with
      | none => simp
      | some v => cases v <;> simp [Value.eqString]
    · intro hl
      simp [hl]
    · intro v hl hv
      cases v <;> simp_all [Value.eqString]

/-- C1 at a concrete backend: a failing Get gives `(false, e)`. -/
theorem authenticate_contract_witness :
    (Authenticate (failing (.base "down")) ⟨(), []⟩ "alice" "pw").1
      = (false, some (.base "down")) :=
  (authenticate_contract (failing (.base "down")) ⟨(), []⟩ "alice" "pw").1 _ rfl

/-! ## RemoveBasicAuthCredentials -/

/-- C4: when the version listing for `u` returns `L`, `RemoveBasicAuthCredentials` makes
the listing call and then exactly one Destroy call, at mount "http/auth" with key `u` and
the version numbers of `L` in the order of `L`, and returns what Destroy returns; when
the listing fails, the listing is the only call and Destroy is not called. -/
theorem remove_destroys_listed_versions (B : Backend σ) (w : World σ) (u : String) :
    (∀ L, (B.kvGetVersionsAsList w.st "http/auth" u).1 = .ok L →
      (RemoveBasicAuthCredentials B w u).2.trace
        = w.trace ++ [Call.kvGetVersionsAsList "http/auth" u,
            Call.kvDestroy "http/auth" u (L.map (fun m => m.version))] ∧
      (RemoveBasicAuthCredentials B w u).1
        = (B.kvDestroy (B.kvGetVersionsAsList w.st "http/auth" u).2 "http/auth" u
            (L.map (fun m => m.version))).1 ∧
      (L.map (fun m => m.version)).length = L.length ∧
      (L = [] → L.map (fun m => m.version) = [])) ∧
    (∀ e, (B.kvGetVersionsAsList w.st "http/auth" u).1 = .error e →
      (RemoveBasicAuthCredentials B w u).2.trace
        = w.trace ++ [Call.kvGetVersionsAsList "http/auth" u]) := by
  refine ⟨fun L h => ⟨?_, ?_, by simp, fun hL => by simp [hL]⟩, fun e h => ?_⟩
  · simp [RemoveBasicAuthCredentials, callKvGetVersionsAsList, callKvDestroy, authMountPath, h,
      foldl_versions]
  · simp [RemoveBasicAuthCredentials, callKvGetVersionsAsList, callKvDestroy, authMountPath, h,
      foldl_versions]
  · simp [RemoveBasicAuthCredentials, callKvGetVersionsAsList, authMountPath, h]

/-- C4 at a concrete backend: two listed versions are destroyed in order. -/
theorem remove_destroys_listed_versions_witness :
    (RemoveBasicAuthCredentials
        (fixed (.ok "") (.ok none) (.ok none) (.ok none) (.ok [⟨1, false⟩, ⟨2, false⟩])
          (.ok none) none) ⟨(), []⟩ "alice").2.trace
      = [Call.kvGetVersionsAsList "http/auth" "alice", Call.kvDestroy "http/auth" "alice" [1, 2]] :=
  ((remove_destroys_listed_versions
      (fixed (.ok "") (.ok none) (.ok none) (.ok none) (.ok [⟨1, false⟩, ⟨2, false⟩])
        (.ok none) none) ⟨(), []⟩ "alice").1 [⟨1, false⟩, ⟨2, false⟩] rfl).1

/-! ## GenerateBasicAuthCredentials -/

/-- C6: when generation from the policy "basicAuth" yields the password `pw` and the Put
succeeds, `GenerateBasicAuthCredentials` returns `(pw, nil)`, and the one Put it makes
writes the record with the single key "password" holding `pw` at mount "http/auth" under
key `u`. When the Put fails, or generation fails, it returns the empty password with a
non-nil error; when generation fails no Put is made. -/
theorem generate_contract (B : Backend σ) (w : World σ) (u : String) :
    (∀ resp pw, (B.logicalRead w.st "/sys/policies/password/basicAuth/generate").1
          = .ok (some resp) →
        resp.data.lookup "password" = some (.str pw) →
      (GenerateBasicAuthCredentials B w u).2.trace
        = w.trace ++ [Call.logicalRead "/sys/policies/password/basicAuth/generate",
            Call.kvPut "http/auth" u [("password", .str pw)]] ∧
      (∀ r, (B.kvPut (B.logicalRead w.st "/sys/policies/password/basicAuth/generate").2
            "http/auth" u [("password", .str pw)]).1 = .ok r →
        (GenerateBasicAuthCredentials B w u).1 = .ret (pw, none)) ∧
      (∀ e, (B.kvPut (B.logicalRead w.st "/sys/policies/password/basicAuth/generate").2
            "http/auth" u [("password", .str pw)]).1 = .error e →
        ∃ err, (GenerateBasicAuthCredentials B w u).1 = .ret ("", some err))) ∧
    (∀ e, (B.logicalRead w.st "/sys/policies/password/basicAuth/generate").1 = .error e →
      (∃ err, (GenerateBasicAuthCredentials B w u).1 = .ret ("", some err)) ∧
      (GenerateBasicAuthCredentials B w u).2.trace
        = w.trace ++ [Call.logicalRead "/sys/policies/password/basicAuth/generate"]) := by
  have hp : "/sys/policies/password/" ++ policyName ++ "/generate"
      = "/sys/policies/password/basicAuth/generate" := by decide
  refine ⟨fun resp pw h hl => ⟨?_, fun r hr => ?_, fun e he => ?_⟩, fun e h => ⟨?_, ?_⟩⟩
  · cases hr : (B.kvPut (B.logicalRead w.st "/sys/policies/password/basicAuth/generate").2
        "http/auth" u [("password", .str pw)]).1 <;>
      simp [GenerateBasicAuthCredentials, generatePasswordFromPolicy, callLogicalRead, callKvPut,
        authMountPath, hp, h, hl, hr]
  · simp [GenerateBasicAuthCredentials, generatePasswordFromPolicy, callLogicalRead, callKvPut,
      authMountPath, hp, h, hl, hr]
  · simp [GenerateBasicAuthCredentials, generatePasswordFromPolicy, callLogicalRead, callKvPut,
      authMountPath, hp, h, hl, he]
  · simp [GenerateBasicAuthCredentials, generatePasswordFromPolicy, callLogicalRead, hp, h]
  · simp [GenerateBasicAuthCredentials, generatePasswordFromPolicy, callLogicalRead, hp, h]

/-- C6 at the modelled store: the generated password is returned after one Put. -/
theorem generate_contract_witness :
    (GenerateBasicAuthCredentials (modelStore (okFaults "s3cret")) ⟨emptyStore, []⟩ "alice").1
      = .ret ("s3cret", none) :=
  ((generate_contract (modelStore (okFaults "s3cret")) ⟨emptyStore, []⟩ "alice").1
    ⟨[("password", .str "s3cret")]⟩ "s3cret" rfl rfl).2.1 (some ⟨[]⟩) rfl

/-! ## NewClient of the Basic-Auth example -/

/-- C7: once the Vault client is constructed, when the policy-file read succeeds with
content `c`, `NewClient` makes exactly one backend call, the write at
"/sys/policies/password/basicAuth" of the record with the single key "policy" holding `c`
unchanged, and returns the client exactly when that write succeeds. When the file read
fails no backend call is made. In every failure case (client construction, file read,
policy write) it returns no client and a non-nil error. -/
theorem newClient_uploads_policy (B : Backend σ) (w : World σ)
    (config : BasicAuth.Configuration) :
    (∀ e, (B.vaultNewClient w.st ⟨config.address, 3, 30 * 1000000000⟩).1 = some e →
      (∃ err, (BasicAuth.NewClient B w config).1 = (none, some err)) ∧
      (BasicAuth.NewClient B w config).2.trace = w.trace) ∧
    ((B.vaultNewClient w.st ⟨config.address, 3, 30 * 1000000000⟩).1 = none →
      (∀ e, (B.readFile (B.vaultNewClient w.st ⟨config.address, 3, 30 * 1000000000⟩).2
            config.passwordPolicyGenerationFilePath).1 = .error e →
        (∃ err, (BasicAuth.NewClient B w config).1 = (none, some err)) ∧
        (BasicAuth.NewClient B w config).2.trace = w.trace) ∧
      (∀ c, (B.readFile (B.vaultNewClient w.st ⟨config.address, 3, 30 * 1000000000⟩).2
            config.passwordPolicyGenerationFilePath).1 = .ok c →
        (BasicAuth.NewClient B w config).2.trace
          = w.trace ++ [Call.logicalWrite "/sys/policies/password/basicAuth"
              [("policy", .str c)]] ∧
        (∀ r, (B.logicalWrite
              (B.readFile (B.vaultNewClient w.st ⟨config.address, 3, 30 * 1000000000⟩).2
                config.passwordPolicyGenerationFilePath).2
              "/sys/policies/password/basicAuth" [("policy", .str c)]).1 = .ok r →
          ∃ client, (BasicAuth.NewClient B w config).1 = (some client, none)) ∧
        (∀ e, (B.logicalWrite
              (B.readFile (B.vaultNewClient w.st ⟨config.address, 3, 30 * 1000000000⟩).2
                config.passwordPolicyGenerationFilePath).2
              "/sys/policies/password/basicAuth" [("policy", .str c)]).1 = .error e →
          ∃ err, (BasicAuth.NewClient B w config).1 = (none, some err)))) := by
  have hp : "/sys/policies/password/" ++ policyName = "/sys/policies/password/basicAuth" := by
    decide
  refine ⟨fun e h => ?_, fun h => ⟨fun e hf => ?_, fun c hf => ⟨?_, fun r hw => ?_, fun e hw => ?_⟩⟩⟩
  · simp [BasicAuth.NewClient, callVaultNewClient, h]
  · simp [BasicAuth.NewClient, callVaultNewClient, getPolicyFromFile, callReadFile, h, hf]
  · cases hw : (B.logicalWrite
        (B.readFile (B.vaultNewClient w.st ⟨config.address, 3, 30 * 1000000000⟩).2
          config.passwordPolicyGenerationFilePath).2
        "/sys/policies/password/basicAuth" [("policy", .str c)]).1 <;>
      simp [BasicAuth.NewClient, callVaultNewClient, getPolicyFromFile, callReadFile,
        createOrUpdatePasswordPolicy, callLogicalWrite, hp, h, hf, hw]
  · simp [BasicAuth.NewClient, callVaultNewClient, getPolicyFromFile, callReadFile,
      createOrUpdatePasswordPolicy, callLogicalWrite, hp, h, hf, hw]
  · simp [BasicAuth.NewClient, callVaultNewClient, getPolicyFromFile, callReadFile,
      createOrUpdatePasswordPolicy, callLogicalWrite, hp, h, hf, hw]

/-- C7 at the modelled store: the policy file content is uploaded unchanged. -/
theorem newClient_uploads_policy_witness :
    (BasicAuth.NewClient (modelStore (okFaults "s3cret")) ⟨emptyStore, []⟩
        ⟨"http://localhost:8200", "token", "./policy.hcl"⟩).2.trace
      = [Call.logicalWrite "/sys/policies/password/basicAuth"
          [("policy", .str "length = 20")]] :=
  (((newClient_uploads_policy (modelStore (okFaults "s3cret")) ⟨emptyStore, []⟩
      ⟨"http://localhost:8200", "token", "./policy.hcl"⟩).2 rfl).2 "length = 20" rfl).1

/-! ## Panics of password generation -/

/-- C9: when the backend read returns no error, `generatePasswordFromPolicy` returns
normally exactly when the response is non-nil and holds a string under "password", and
then returns that string with a nil error; otherwise (nil response, missing or non-string
"password") it panics. `GenerateBasicAuthCredentials` returns normally in exactly the
same case and panics otherwise. -/
theorem generatePassword_returns_iff (B : Backend σ) (w : World σ) (u : String)
    (r : Option Secret)
    (h : (B.logicalRead w.st "/sys/policies/password/basicAuth/generate").1 = .ok r) :
    ((∃ a, (generatePasswordFromPolicy B w policyName).1 = .ret a) ↔
      ∃ resp s, r = some resp ∧ resp.data.lookup "password" = some (.str s)) ∧
    (∀ resp s, r = some resp → resp.data.lookup "password" = some (.str s) →
      (generatePasswordFromPolicy B w policyName).1 = .ret (s, none)) ∧
    ((¬ ∃ resp s, r = some resp ∧ resp.data.lookup "password" = some (.str s)) →
      (∃ msg, (generatePasswordFromPolicy B w policyName).1 = .panic msg) ∧
      ∃ msg, (GenerateBasicAuthCredentials B w u).1 = .panic msg) ∧
    ((∃ a, (GenerateBasicAuthCredentials B w u).1 = .ret a) ↔
      ∃ resp s, r = some resp ∧ resp.data.lookup "password" = some (.str s)) := by
  have hp : "/sys/policies/password/" ++ policyName ++ "/generate"
      = "/sys/policies/password/basicAuth/generate" := by decide
  cases r with
  | none =>
    simp [GenerateBasicAuthCredentials, generatePasswordFromPolicy, callLogicalRead, hp, h]
  | some resp =>
    cases hl : resp.data.lookup "password" with
    | none =>
      simp [GenerateBasicAuthCredentials, generatePasswordFromPolicy, callLogicalRead, hp, h, hl]
      intro r1 s1 he
      subst he
      simp [hl]
    | some v =>
      cases v with
      | str s =>
        cases hr : (B.kvPut (B.logicalRead w.st "/sys/policies/password/basicAuth/generate").2
            "http/auth" u [("password", .str s)]).1 <;>
          simp [GenerateBasicAuthCredentials, generatePasswordFromPolicy, callLogicalRead,
            callKvPut, authMountPath, hp, h, hl, hr] <;>
          (intro r1 s1 he hl1
           subst he
           rw [hl] at hl1
           injection hl1 with hv
           injection hv)
      | _ =>
        simp [GenerateBasicAuthCredentials, generatePasswordFromPolicy, callLogicalRead, hp, h,
          hl]
        intro r1 s1 he
        subst he
        simp [hl]

/-- C9 at a concrete backend: a nil response without error makes generation panic. -/
theorem generatePassword_returns_iff_witness :
    ∃ msg, (generatePasswordFromPolicy
        (fixed (.ok "") (.ok none) (.ok none) (.ok none) (.ok []) (.ok none) none)
        ⟨(), []⟩ policyName).1 = .panic msg :=
  ((generatePassword_returns_iff
      (fixed (.ok "") (.ok none) (.ok none) (.ok none) (.ok []) (.ok none) none)
      ⟨(), []⟩ "alice" none rfl).2.2.1 (by simp)).1

/-! ## IssueCertificate -/

/-- A successful decode of a string field gives the string under the key, and leaves the
starting value when the key is absent. -/
theorem decodeString_ok (d : Data) (key cur v : String) (h : decodeString d key cur = .ok v) :
    (∀ s, d.lookup key = some (.str s) → v = s) ∧ (d.lookup key = none → v = cur) := by
  refine ⟨fun s hl => ?_, fun hl => ?_⟩
  · simp [decodeString, hl] at h
    exact h.symm
  · simp [decodeString, hl] at h
    exact h.symm

/-- A list of strings decodes to itself. -/
theorem decodeElems_strs (ss : List String) : decodeElems (ss.map Value.str) = some ss := by
  induction ss with
  | nil => rfl
  | cons s rest ih => simp [decodeElems, ih]

/-- A successful decode of a string-list field gives the strings under the key, and leaves
the starting value when the key is absent. -/
theorem decodeStringList_ok (d : Data) (key : String) (cur v : List String)
    (h : decodeStringList d key cur = .ok v) :
    (∀ ss, d.lookup key = some (.list (ss.map Value.str)) → v = ss) ∧
    (d.lookup key = none → v = cur) := by
  refine ⟨fun ss hl => ?_, fun hl => ?_⟩
  · simp [decodeStringList, hl, decodeElems_strs] at h
    exact h.symm
  · simp [decodeStringList, hl] at h
    exact h.symm

/-- A successful decode of a time field gives the time under the key, and leaves the
starting value when the key is absent. -/
theorem decodeTime_ok (d : Data) (key : String) (cur v : Option Int)
    (h : decodeTime d key cur = .ok v) :
    (∀ t, d.lookup key = some (.time t) → v = some t) ∧ (d.lookup key = none → v = cur) := by
  refine ⟨fun t hl => ?_, fun hl => ?_⟩
  · simp [decodeTime, hl] at h
    exact h.symm
  · simp [decodeTime, hl] at h
    exact h.symm

/-- A successful decode of the record is a successful decode of each field. -/
theorem mapstructureDecode_ok (d : Data) (c0 cert : Certificate)
    (h : mapstructureDecode d c0 = .ok cert) :
    decodeString d "certificate" c0.certificate = .ok cert.certificate ∧
    decodeString d "issuing_ca" c0.issuingCA = .ok cert.issuingCA ∧
    decodeStringList d "ca_chain" c0.caChain = .ok cert.caChain ∧
    decodeString d "private_key" c0.privateKey = .ok cert.privateKey ∧
    decodeString d "private_key_type" c0.privateKeyType = .ok cert.privateKeyType ∧
    decodeString d "serial_number" c0.serialNumber = .ok cert.serialNumber ∧
    decodeTime d "expiry" c0.expiry = .ok cert.expiry := by
  unfold mapstructureDecode at h
  split at h <;> simp_all
  subst h
  simp

/-- C8: when the issue call succeeds with a response whose data decodes, the certificate
returned by `IssueCertificate` is the decoded response: each field (certificate, issuing
CA, CA chain, private key, private key type, serial number, expiry) equals the value held
under its key (certificate, issuing_ca, ca_chain, private_key, private_key_type,
serial_number, expiry) and is the zero value when the key is absent; the same response
gives the same certificate for every backend, world and userId. -/
theorem issueCertificate_fields (B : Backend σ) (w : World σ) (userId : String)
    (secret : Secret) (cert : Certificate)
    (hw : (B.logicalWrite w.st "/pki/issue/mtls"
        [("private_key_format", .str "pem"), ("common_name", .str userId),
          ("user_ids", .str userId)]).1 = .ok (some secret))
    (hd : mapstructureDecode secret.data Certificate.zero = .ok cert) :
    (IssueCertificate B w userId).1 = .ret (some cert, none) ∧
    ((∀ s, secret.data.lookup "certificate" = some (.str s) → cert.certificate = s) ∧
      (secret.data.lookup "certificate" = none → cert.certificate = "")) ∧
    ((∀ s, secret.data.lookup "issuing_ca" = some (.str s) → cert.issuingCA = s) ∧
      (secret.data.lookup "issuing_ca" = none → cert.issuingCA = "")) ∧
    ((∀ ss, secret.data.lookup "ca_chain" = some (.list (ss.map Value.str)) →
        cert.caChain = ss) ∧
      (secret.data.lookup "ca_chain" = none → cert.caChain = [])) ∧
    ((∀ s, secret.data.lookup "private_key" = some (.str s) → cert.privateKey = s) ∧
      (secret.data.lookup "private_key" = none → cert.privateKey = "")) ∧
    ((∀ s, secret.data.lookup "private_key_type" = some (.str s) → cert.privateKeyType = s) ∧
      (secret.data.lookup "private_key_type" = none → cert.privateKeyType = "")) ∧
    ((∀ s, secret.data.lookup "serial_number" = some (.str s) → cert.serialNumber = s) ∧
      (secret.data.lookup "serial_number" = none → cert.serialNumber = "")) ∧
    ((∀ t, secret.data.lookup "expiry" = some (.time t) → cert.expiry = some t) ∧
      (secret.data.lookup "expiry" = none → cert.expiry = none)) ∧
    (∀ (τ : Type) (B2 : Backend τ) (w2 : World τ) (userId2 : String),
      (B2.logicalWrite w2.st "/pki/issue/mtls"
        [("private_key_format", .str "pem"), ("common_name", .str userId2),
          ("user_ids", .str userId2)]).1 = .ok (some secret) →
      (IssueCertificate B2 w2 userId2).1 = .ret (some cert, none)) := by
  obtain ⟨h1, h2, h3, h4, h5, h6, h7⟩ := mapstructureDecode_ok _ _ _ hd
  refine ⟨by simp [IssueCertificate, callLogicalWrite, hw, hd],
    decodeString_ok _ _ _ _ h1, decodeString_ok _ _ _ _ h2, decodeStringList_ok _ _ _ _ h3,
    decodeString_ok _ _ _ _ h4, decodeString_ok _ _ _ _ h5, decodeString_ok _ _ _ _ h6,
    decodeTime_ok _ _ _ _ h7, ?_⟩
  intro τ B2 w2 userId2 hw2
  simp [IssueCertificate, callLogicalWrite, hw2, hd]

/-- C8 at a concrete backend: the certificate and serial number come from the response,
the absent fields are zero. -/
theorem issueCertificate_fields_witness :
    (IssueCertificate
        (fixed (.ok "") (.ok none)
          (.ok (some ⟨[("certificate", .str "PEM"), ("serial_number", .str "01")]⟩))
          (.ok none) (.ok []) (.ok none) none) ⟨(), []⟩ "alice").1
      = .ret (some ⟨"PEM", "", [], "", "", "01", none⟩, none) :=
  (issueCertificate_fields
      (fixed (.ok "") (.ok none)
        (.ok (some ⟨[("certificate", .str "PEM"), ("serial_number", .str "01")]⟩))
        (.ok none) (.ok []) (.ok none) none) ⟨(), []⟩ "alice"
      ⟨[("certificate", .str "PEM"), ("serial_number", .str "01")]⟩
      ⟨"PEM", "", [], "", "", "01", none⟩ rfl rfl).1

/-! ## The clients over the modelled store -/

/-- Destroying every listed version leaves no version of the key with data. -/
theorem destroy_all_versions (s : KVStore) (mount key : String) :
    ∀ v ∈ (s.destroy mount key ((s mount key).map (fun v => v.version))) mount key,
      v.data = none := by
  intro v hv
  simp only [KVStore.destroy, and_self, if_true, List.mem_map] at hv
  obtain ⟨a, ha, rfl⟩ := hv
  have hmem : ∃ b ∈ s mount key, b.version = a.version := ⟨a, ha, rfl⟩
  rw [if_pos hmem]

/-- What `Authenticate` returns over the modelled store, by the latest version. -/
theorem authenticate_model (F : StoreFaults) (w : World KVStore) (u p : String) :
    (Authenticate (modelStore F) w u p).1
      = match (w.st "http/auth" u).getLast? with
        | none => (false, some (.base "secret not found"))
        | some v =>
          ((match (v.data.getD []).lookup "password" with
            | some x => x.eqString p
            | none => false), none) := by
  simp only [Authenticate, callKvGet, modelStore, authMountPath]
  cases (w.st "http/auth" u).getLast? <;> rfl

/-- The store after a `RemoveBasicAuthCredentials` that returns nil. -/
theorem remove_model_state (F : StoreFaults) (s : KVStore) (t : List Call) (u : String)
    (h : (RemoveBasicAuthCredentials (modelStore F) ⟨s, t⟩ u).1 = none) :
    (RemoveBasicAuthCredentials (modelStore F) ⟨s, t⟩ u).2.st
      = s.destroy "http/auth" u ((s "http/auth" u).map (fun v => v.version)) := by
  cases hl : F.listErr s "http/auth" u with
  | some e =>
    simp [RemoveBasicAuthCredentials, callKvGetVersionsAsList, modelStore, authMountPath, hl] at h
  | none =>
    cases hd : F.destroyErr s "http/auth" u ((s "http/auth" u).map (fun v => v.version)) with
    | some e =>
      simp [RemoveBasicAuthCredentials, callKvGetVersionsAsList, callKvDestroy, modelStore,
        authMountPath, hl, foldl_versions, Function.comp_def, hd] at h
    | none =>
      simp [RemoveBasicAuthCredentials, callKvGetVersionsAsList, callKvDestroy, modelStore,
        authMountPath, hl, foldl_versions, Function.comp_def, hd]

/-- C5: over the modelled store, after `RemoveBasicAuthCredentials(u)` returns nil no
version of the secret of `u` retains data, and `Authenticate(u, p)` returns false for
every password `p`. -/
theorem remove_then_authenticate_false (F : StoreFaults) (s : KVStore) (t : List Call)
    (u : String)
    (h : (RemoveBasicAuthCredentials (modelStore F) ⟨s, t⟩ u).1 = none) :
    (∀ v ∈ (RemoveBasicAuthCredentials (modelStore F) ⟨s, t⟩ u).2.st "http/auth" u,
      v.data = none) ∧
    (∀ p, (Authenticate (modelStore F)
        (RemoveBasicAuthCredentials (modelStore F) ⟨s, t⟩ u).2 u p).1.1 = false) := by
  have hall := destroy_all_versions s "http/auth" u
  have hst := remove_model_state F s t u h
  refine ⟨by rw [hst]; exact hall, fun p => ?_⟩
  rw [authenticate_model, hst]
  cases hg : ((s.destroy "http/auth" u ((s "http/auth" u).map (fun v => v.version)))
      "http/auth" u).getLast? with
  | none => rfl
  | some v =>
    have hv : v.data = none := hall v (List.mem_of_mem_getLast? hg)
    simp [hv]

/-- C5 at a concrete store: after one Put and a removal, authentication fails. -/
theorem remove_then_authenticate_false_witness :
    (Authenticate (modelStore (okFaults "s3cret"))
      (RemoveBasicAuthCredentials (modelStore (okFaults "s3cret"))
        ⟨emptyStore.put "http/auth" "alice" [("password", .str "s3cret")], []⟩ "alice").2
      "alice" "s3cret").1.1 = false :=
  (remove_then_authenticate_false (okFaults "s3cret")
    (emptyStore.put "http/auth" "alice" [("password", .str "s3cret")]) [] "alice" rfl).2 "s3cret"

/-- The store after a `GenerateBasicAuthCredentials` that returns `(pw, nil)`. -/
theorem generate_model_state (F : StoreFaults) (s : KVStore) (t : List Call) (u pw : String)
    (h : (GenerateBasicAuthCredentials (modelStore F) ⟨s, t⟩ u).1 = .ret (pw, none)) :
    (GenerateBasicAuthCredentials (modelStore F) ⟨s, t⟩ u).2.st
      = s.put "http/auth" u [("password", .str pw)] := by
  have hp : "/sys/policies/password/" ++ policyName ++ "/generate"
      = "/sys/policies/password/basicAuth/generate" := by decide
  cases hr : F.read s "/sys/policies/password/basicAuth/generate" with
  | error e =>
    simp [GenerateBasicAuthCredentials, generatePasswordFromPolicy, callLogicalRead, modelStore,
      hp, hr] at h
  | ok r =>
    cases r with
    | none =>
      simp [GenerateBasicAuthCredentials, generatePasswordFromPolicy, callLogicalRead,
        modelStore, hp, hr] at h
    | some resp =>
      cases hl : resp.data.lookup "password" with
      | none =>
        simp [GenerateBasicAuthCredentials, generatePasswordFromPolicy, callLogicalRead,
          modelStore, hp, hr, hl] at h
      | some v =>
        cases v with
        | str x =>
          cases hf : F.putErr s "http/auth" u [("password", .str x)] with
          | some e =>
            simp [GenerateBasicAuthCredentials, generatePasswordFromPolicy, callLogicalRead,
              callKvPut, modelStore, authMountPath, hp, hr, hl, hf] at h
          | none =>
            simp [GenerateBasicAuthCredentials, generatePasswordFromPolicy, callLogicalRead,
              callKvPut, modelStore, authMountPath, hp, hr, hl, hf] at h
            subst h
            simp [GenerateBasicAuthCredentials, generatePasswordFromPolicy, callLogicalRead,
              callKvPut, modelStore, authMountPath, hp, hr, hl, hf]
        | _ =>
          simp [GenerateBasicAuthCredentials, generatePasswordFromPolicy, callLogicalRead,
            modelStore, hp, hr, hl] at h

/-- C10: over the modelled store, after `GenerateBasicAuthCredentials(u)` returns
`(pw, nil)`, `Authenticate(u, pw)` returns `(true, nil)` and `Authenticate(u, q)` returns
`(false, nil)` for every password `q` other than `pw`. -/
theorem generate_then_authenticate (F : StoreFaults) (s : KVStore) (t : List Call)
    (u pw : String)
    (h : (GenerateBasicAuthCredentials (modelStore F) ⟨s, t⟩ u).1 = .ret (pw, none)) :
    (Authenticate (modelStore F)
        (GenerateBasicAuthCredentials (modelStore F) ⟨s, t⟩ u).2 u pw).1 = (true, none) ∧
    (∀ q, q ≠ pw → (Authenticate (modelStore F)
        (GenerateBasicAuthCredentials (modelStore F) ⟨s, t⟩ u).2 u q).1 = (false, none)) := by
  have hst := generate_model_state F s t u pw h
  refine ⟨?_, fun q hq => ?_⟩
  · rw [authenticate_model, hst]
    simp [KVStore.put, Value.eqString]
  · rw [authenticate_model, hst]
    simp [KVStore.put, Value.eqString]
    exact fun hc => hq hc.symm

/-- C10 at the modelled store: the generated password authenticates. -/
theorem generate_then_authenticate_witness :
    (Authenticate (modelStore (okFaults "s3cret"))
      (GenerateBasicAuthCredentials (modelStore (okFaults "s3cret")) ⟨emptyStore, []⟩ "alice").2
      "alice" "s3cret").1 = (true, none) :=
  (generate_then_authenticate (okFaults "s3cret") emptyStore [] "alice" "s3cret" rfl).1

/-! ## Backend calls per operation -/

/-- C3, as stated, fails: a successful `GenerateBasicAuthCredentials` makes two backend
calls, the generate read and the Put. -/
theorem single_call_counterexample :
    (GenerateBasicAuthCredentials (modelStore (okFaults "s3cret")) ⟨emptyStore, []⟩ "bob").2.trace
        = [Call.logicalRead "/sys/policies/password/basicAuth/generate",
            Call.kvPut "http/auth" "bob" [("password", .str "s3cret")]] ∧
    (GenerateBasicAuthCredentials (modelStore (okFaults "s3cret"))
        ⟨emptyStore, []⟩ "bob").2.trace.length ≠ 1 :=
  ⟨rfl, by decide⟩

/-- C3, amended: `Authenticate`, `IssueCertificate` and `RevokeCertificate` make exactly one
backend call on every execution. `GenerateBasicAuthCredentials` makes the generate read
and then one Put exactly when the read returned a string password (two calls, otherwise
one); `RemoveBasicAuthCredentials` makes the version listing and then one Destroy exactly
when the listing succeeded (two calls, otherwise one). -/
theorem backend_calls_per_operation (B : Backend σ) (w : World σ) (u p : String) :
    (Authenticate B w u p).2.trace = w.trace ++ [Call.kvGet "http/auth" u] ∧
    (IssueCertificate B w u).2.trace
      = w.trace ++ [Call.logicalWrite "/pki/issue/mtls"
          [("private_key_format", .str "pem"), ("common_name", .str u),
            ("user_ids", .str u)]] ∧
    (RevokeCertificate B w u).2.trace
      = w.trace ++ [Call.logicalWrite "/pki/revoke" [("serial_number", .str u)]] ∧
    (GenerateBasicAuthCredentials B w u).2.trace
      = w.trace ++ Call.logicalRead "/sys/policies/password/basicAuth/generate" ::
          (match (B.logicalRead w.st "/sys/policies/password/basicAuth/generate").1 with
            | .ok (some resp) =>
              (match resp.data.lookup "password" with
                | some (.str pw) => [Call.kvPut "http/auth" u [("password", .str pw)]]
                | _ => [])
            | _ => []) ∧
    (RemoveBasicAuthCredentials B w u).2.trace
      = w.trace ++ Call.kvGetVersionsAsList "http/auth" u ::
          (match (B.kvGetVersionsAsList w.st "http/auth" u).1 with
            | .ok L => [Call.kvDestroy "http/auth" u (L.map (fun m => m.version))]
            | .error _ => []) := by
  have hp : "/sys/policies/password/" ++ policyName ++ "/generate"
      = "/sys/policies/password/basicAuth/generate" := by decide
  refine ⟨?_, ?_, ?_, ?_, ?_⟩
  · rcases hg : (B.kvGet w.st "http/auth" u).1 with e | r
    · simp [Authenticate, callKvGet, authMountPath, hg]
    · cases r <;> simp [Authenticate, callKvGet, authMountPath, hg]
  · rcases hg : (B.logicalWrite w.st "/pki/issue/mtls"
        [("private_key_format", .str "pem"), ("common_name", .str u),
          ("user_ids", .str u)]).1 with e | r
    · simp [IssueCertificate, callLogicalWrite, hg]
    · cases r with
      | none => simp [IssueCertificate, callLogicalWrite, hg]
      | some secret =>
        cases hd : mapstructureDecode secret.data Certificate.zero <;>
          simp [IssueCertificate, callLogicalWrite, hg, hd]
  · rcases hg : (B.logicalWrite w.st "/pki/revoke" [("serial_number", .str u)]).1 with e | r <;>
      simp [RevokeCertificate, callLogicalWrite, hg]
  · rcases hg : (B.logicalRead w.st "/sys/policies/password/basicAuth/generate").1 with e | r
    · simp [GenerateBasicAuthCredentials, generatePasswordFromPolicy, callLogicalRead, hp, hg]
    · cases r with
      | none =>
        simp [GenerateBasicAuthCredentials, generatePasswordFromPolicy, callLogicalRead, hp, hg]
      | some resp =>
        cases hl : resp.data.lookup "password" with
        | none =>
          simp [GenerateBasicAuthCredentials, generatePasswordFromPolicy, callLogicalRead, hp,
            hg, hl]
        | some v =>
          cases v with
          | str x =>
            cases hr : (B.kvPut (B.logicalRead w.st
                "/sys/policies/password/basicAuth/generate").2
                "http/auth" u [("password", .str x)]).1 <;>
              simp [GenerateBasicAuthCredentials, generatePasswordFromPolicy, callLogicalRead,
                callKvPut, authMountPath, hp, hg, hl, hr]
          | _ =>
            simp [GenerateBasicAuthCredentials, generatePasswordFromPolicy, callLogicalRead, hp,
              hg, hl]
  · rcases hg : (B.kvGetVersionsAsList w.st "http/auth" u).1 with e | L
    · simp [RemoveBasicAuthCredentials, callKvGetVersionsAsList, authMountPath, hg]
    · simp [RemoveBasicAuthCredentials, callKvGetVersionsAsList, callKvDestroy, authMountPath,
        hg, foldl_versions]

/-! ## Error wrapping -/

/-- C2 evaluated where the code departs from it: with `e` the error "connection refused",
a failing Get makes `Authenticate` return `e` itself, a failing Destroy makes
`RemoveBasicAuthCredentials` return `e` itself, and a failing policy-file read makes
`NewClient` return `e` itself; `e` does not wrap `e`. The failing version listing in the
same `RemoveBasicAuthCredentials` is returned wrapped. -/
theorem errors_returned_unwrapped :
    (Authenticate (failing (.base "connection refused")) ⟨(), []⟩ "carol" "pw").1
      = (false, some (.base "connection refused")) ∧
    (RemoveBasicAuthCredentials
        (fixed (.ok "") (.ok none) (.ok none) (.ok none) (.ok [⟨1, false⟩]) (.ok none)
          (some (.base "connection refused"))) ⟨(), []⟩ "carol").1
      = some (.base "connection refused") ∧
    (BasicAuth.NewClient
        (fixed (.error (.base "connection refused")) (.ok none) (.ok none) (.ok none) (.ok [])
          (.ok none) none) ⟨(), []⟩ ⟨"http://localhost:8200", "token", "./policy.hcl"⟩).1
      = (none, some (.base "connection refused")) ∧
    Err.wraps (.base "connection refused") (.base "connection refused") = false ∧
    (RemoveBasicAuthCredentials (failing (.base "connection refused")) ⟨(), []⟩ "carol").1
      = some (.wrapf (.base "connection refused") "failed to list versions for carol") ∧
    Err.wraps (.wrapf (.base "connection refused") "failed to list versions for carol")
      (.base "connection refused") = true :=
  ⟨rfl, rfl, rfl, by decide, rfl, by decide⟩

end VaultExamples
